import Mathlib

/-!
Shallow embedding of the alert rule evaluation and lifecycle engine of the
industrial telemetry system (src/services/telemetry/processing/alerts.go).

Machine identifiers (UUIDs in the source) are modelled as naturals, float64
metric values as rationals (the four comparison operators are exact on both),
and the alert store (the alerts table) as a list of alert records.  The
outcome of each store call is passed in explicitly, so that both a correctly
answering store and a failing one can be reasoned about.
-/

namespace Telemetry

/-- Identifier type standing in for the uuid.UUID of the source. -/
abbrev UUID := Nat

/-- AlertRule mirrors the Go struct AlertRule (alerts.go lines 23-31):
id, name, metric name, condition type, threshold value, operator string,
severity and the enabled flag. -/
structure AlertRule where
  id : UUID
  name : String
  metricName : String
  conditionType : String
  thresholdValue : ℚ
  operator : String
  severity : String
  enabled : Bool
deriving DecidableEq, Repr

/-- Alert mirrors one row of the alerts table (db/migrations.go): the insert
in createAlert sets machine_id, rule_id, severity and message, and the schema
defaults acknowledged to false with acknowledged_by and acknowledged_at null. -/
structure Alert where
  id : UUID
  machineId : UUID
  ruleId : UUID
  severity : String
  message : String
  acknowledged : Bool
  acknowledgedBy : Option String
  acknowledgedAt : Option Nat
deriving DecidableEq, Repr

/-- The alert store: the rows of the alerts table, plus the id the store
will assign to the next inserted row (gen_random_uuid in the schema). -/
structure AlertStore where
  alerts : List Alert
  nextId : UUID
deriving DecidableEq, Repr

/-- The operator switch appearing identically in CheckMetric (alerts.go
lines 146-156) and resolveAlerts (lines 90-100): a Go switch on the operator
string over the four comparison cases, any other string leaving the
triggered flag at its initial value false. -/
def evalOperator (op : String) (value threshold : ℚ) : Bool :=
  if op = ">" then decide (value > threshold)
  else if op = "<" then decide (value < threshold)
  else if op = ">=" then decide (value ≥ threshold)
  else if op = "<=" then decide (value ≤ threshold)
  else false

/-- Two-digit zero-padded fractional part, helper for fmt2. -/
def fmt2Frac (r : Nat) : String :=
  (if r < 10 then "0" else "") ++ toString r

/-- Rendering of a numeric value with exactly two decimals, the model of the
Go format verb %.2f used in the createAlert message (alerts.go line 180):
the value is scaled by 100, rounded to the nearest integer (ties upward,
computed as the floor of the scaled value plus one half), and printed with a
decimal point before the last two digits. -/
def fmt2 (q : ℚ) : String :=
  let n : Int := ⌊q * 100 + 1/2⌋
  let sign := if n < 0 then "-" else ""
  let m := n.natAbs
  sign ++ toString (m / 100) ++ "." ++ fmt2Frac (m % 100)

/-- The WHERE clause of the existence query in createAlert (alerts.go line
168): machine_id = $1 AND rule_id = $2 AND acknowledged = false. -/
def isOpenFor (machineId ruleId : UUID) (a : Alert) : Bool :=
  a.machineId == machineId && a.ruleId == ruleId && a.acknowledged == false

/-- The existence query of createAlert evaluated against the store: the first
row (if any) with the given machine id and rule id that is unacknowledged. -/
def findOpenAlert (st : AlertStore) (machineId ruleId : UUID) : Option Alert :=
  st.alerts.find? (isOpenFor machineId ruleId)

/-- Number of open alerts in the store for a (machineId, ruleId) dedup key. -/
def countOpen (st : AlertStore) (machineId ruleId : UUID) : Nat :=
  (st.alerts.filter (isOpenFor machineId ruleId)).length

/-- Outcome of the QueryRow(...).Scan call in createAlert (alerts.go lines
166-169): err == nil when a row was scanned, pgx.ErrNoRows when the query ran
and matched nothing, or any other store failure. -/
inductive ScanOutcome where
  | found (id : UUID)
  | noRows
  | queryError
deriving DecidableEq, Repr

/-- The message built in createAlert (alerts.go lines 176-180): the rule name,
or the metric name when the rule name is empty, followed by the value and
threshold each rendered with two decimals. -/
def alertMessage (rule : AlertRule) (value : ℚ) : String :=
  let base := if rule.name = "" then rule.metricName else rule.name
  base ++ " - value: " ++ fmt2 value ++ " (threshold: " ++ fmt2 rule.thresholdValue ++ ")"

/-- The row inserted by createAlert (alerts.go lines 182-185): machine id,
rule id, rule severity and the formatted message; the schema supplies
acknowledged = false and null acknowledgement columns. -/
def newAlert (st : AlertStore) (machineId : UUID) (rule : AlertRule) (value : ℚ) : Alert :=
  { id := st.nextId, machineId := machineId, ruleId := rule.id,
    severity := rule.severity, message := alertMessage rule value,
    acknowledged := false, acknowledgedBy := none, acknowledgedAt := none }

/-- createAlert (alerts.go lines 165-191) with the outcome of its existence
query passed in: if the scan succeeded (err == nil) it returns the store
unchanged; on ANY other outcome — no rows or a store failure — it proceeds to
insert the new alert row. -/
def createAlertWith (outcome : ScanOutcome) (st : AlertStore) (machineId : UUID)
    (rule : AlertRule) (value : ℚ) : AlertStore :=
  match outcome with
  | .found _ => st
  | _ =>
    { alerts := st.alerts ++ [newAlert st machineId rule value],
      nextId := st.nextId + 1 }

/-- The existence query answered correctly by the store: found with the row
id when an open alert for the key exists, otherwise the no-rows error. -/
def scanOpenAlert (st : AlertStore) (machineId ruleId : UUID) : ScanOutcome :=
  match findOpenAlert st machineId ruleId with
  | some a => .found a.id
  | none => .noRows

/-- createAlert against a correctly answering store. -/
def createAlert (st : AlertStore) (machineId : UUID) (rule : AlertRule) (value : ℚ) : AlertStore :=
  createAlertWith (scanOpenAlert st machineId rule.id) st machineId rule value

/-- CheckMetric (alerts.go lines 138-163): iterate over the rule snapshot in
order; skip rules whose metric name differs from that of the sample; compute
the triggered flag with the operator switch; call createAlert for each rule
that triggered. -/
def CheckMetric (rules : List AlertRule) (st : AlertStore) (machineId : UUID)
    (metricName : String) (value : ℚ) : AlertStore :=
  rules.foldl (fun acc rule =>
    if rule.metricName ≠ metricName then acc
    else if evalOperator rule.operator value rule.thresholdValue then
      createAlert acc machineId rule value
    else acc) st

/-- The rules[ruleID] map lookup in resolveAlerts (alerts.go lines 56-60,
86): the sweep snapshots the rule cache into a map keyed by rule id. -/
def lookupRule (rules : List AlertRule) (ruleId : UUID) : Option AlertRule :=
  rules.find? (fun r => r.id == ruleId)

/-- Processing of one fetched row in the loop of resolveAlerts (alerts.go
lines 78-112).  The query of the sweep selects only rows WHERE acknowledged
= false, so an acknowledged alert is never touched; a rule-lookup miss or a
null current value (no latest sample, from the LEFT JOIN LATERAL) hits the
continue and leaves the alert unchanged; otherwise the operator switch is
re-applied and, when no longer triggered, the alert is acknowledged by
"system" at NOW(). -/
def resolveOne (rules : List AlertRule) (latest : UUID → String → Option ℚ)
    (now : Nat) (a : Alert) : Alert :=
  if a.acknowledged then a
  else
    match lookupRule rules a.ruleId with
    | none => a
    | some rule =>
      match latest a.machineId rule.metricName with
      | none => a
      | some v =>
        if evalOperator rule.operator v rule.thresholdValue then a
        else { a with acknowledged := true, acknowledgedBy := some "system",
                      acknowledgedAt := some now }

/-- One sweep of resolveAlerts (alerts.go lines 53-113) over the store:
every row is processed by resolveOne; the latest function gives the most
recent sample value for a (machine, metric) pair, none when no sample
exists. -/
def resolveAlerts (rules : List AlertRule) (latest : UUID → String → Option ℚ)
    (now : Nat) (st : AlertStore) : AlertStore :=
  { st with alerts := st.alerts.map (resolveOne rules latest now) }

/-- In-memory state of the AlertService relevant to rule loading: the rules
field and the log. -/
structure ServiceState where
  rules : List AlertRule
  logs : List String
deriving DecidableEq, Repr

/-- loadRules (alerts.go lines 116-136) with the result of the repository
query passed in: on a query error it logs the failure and returns, leaving
the rules field unchanged; on success it replaces the rules field with the
loaded list and logs the count. -/
def loadRules (queryResult : Except String (List AlertRule)) (s : ServiceState) : ServiceState :=
  match queryResult with
  | .error e => { s with logs := s.logs ++ ["Failed to load alert rules: " ++ e] }
  | .ok rs =>
    { rules := rs, logs := s.logs ++ ["Loaded " ++ toString rs.length ++ " alert rules"] }

/-- Concrete rule used by the scenario-style statements: threshold 70 on
temperature with operator greater-than, as in spec Scenario A. -/
def tempRule : AlertRule :=
  { id := 1, name := "temp high", metricName := "temperature",
    conditionType := "threshold", thresholdValue := 70, operator := ">",
    severity := "warning", enabled := true }

/-- Concrete rule with an operator string outside the four comparisons. -/
def betweenRule : AlertRule :=
  { id := 2, name := "bogus", metricName := "pressure",
    conditionType := "threshold", thresholdValue := 50, operator := "between",
    severity := "critical", enabled := true }

/-- Critical-severity rule on the same metric as tempRule. -/
def critRule : AlertRule :=
  { id := 3, name := "temp critical", metricName := "temperature",
    conditionType := "threshold", thresholdValue := 90, operator := ">",
    severity := "critical", enabled := true }

/-- Concrete open alert for machine 5 and rule 1. -/
def alertX : Alert :=
  { id := 10, machineId := 5, ruleId := 1, severity := "warning",
    message := "temp high - value: 71.30 (threshold: 70.00)",
    acknowledged := false, acknowledgedBy := none, acknowledgedAt := none }

/-- Acknowledged alert fixture. -/
def alertAck : Alert :=
  { id := 12, machineId := 5, ruleId := 1, severity := "warning",
    message := "temp high - value: 71.30 (threshold: 70.00)",
    acknowledged := true, acknowledgedBy := some "system", acknowledgedAt := some 4 }

/-- Store holding no alerts. -/
def emptyStore : AlertStore := { alerts := [], nextId := 0 }

lemma findOpenAlert_eq_none_iff (st : AlertStore) (m r : UUID) :
    findOpenAlert st m r = none ↔ countOpen st m r = 0 := by
  simp [findOpenAlert, countOpen, List.find?_eq_none, List.length_eq_zero,
    List.filter_eq_nil_iff]

lemma createAlert_of_found (st : AlertStore) (m : UUID) (rule : AlertRule) (v : ℚ)
    (a : Alert) (h : findOpenAlert st m rule.id = some a) :
    createAlert st m rule v = st := by
  simp [createAlert, scanOpenAlert, h, createAlertWith]

lemma createAlert_of_none (st : AlertStore) (m : UUID) (rule : AlertRule) (v : ℚ)
    (h : findOpenAlert st m rule.id = none) :
    createAlert st m rule v =
      { alerts := st.alerts ++ [newAlert st m rule v], nextId := st.nextId + 1 } := by
  simp [createAlert, scanOpenAlert, h, createAlertWith]

lemma isOpenFor_newAlert (st : AlertStore) (m m' r' : UUID) (rule : AlertRule) (v : ℚ) :
    isOpenFor m' r' (newAlert st m rule v) = (m == m' && rule.id == r') := by
  simp [isOpenFor, newAlert]

lemma countOpen_append (l x : List Alert) (n : UUID) (m r : UUID) :
    countOpen ⟨l ++ x, n⟩ m r = countOpen ⟨l, n⟩ m r + countOpen ⟨x, n⟩ m r := by
  simp [countOpen]

lemma countOpen_store_append (st : AlertStore) (x : Alert) (n : UUID) (m r : UUID) :
    countOpen ⟨st.alerts ++ [x], n⟩ m r =
      countOpen st m r + if isOpenFor m r x then 1 else 0 := by
  by_cases hx : isOpenFor m r x = true
  · simp [countOpen, List.filter_append, List.filter_singleton, hx]
  · simp [countOpen, List.filter_append, List.filter_singleton, hx]

lemma countOpen_createAlert_le_any (st : AlertStore) (m : UUID) (rule : AlertRule)
    (v : ℚ) (m' r' : UUID) (h : countOpen st m' r' ≤ 1) :
    countOpen (createAlert st m rule v) m' r' ≤ 1 := by
  rcases hf : findOpenAlert st m rule.id with _ | a
  · rw [createAlert_of_none st m rule v hf]
    have h0 : countOpen st m rule.id = 0 := (findOpenAlert_eq_none_iff st m rule.id).mp hf
    have hsplit : countOpen { alerts := st.alerts ++ [newAlert st m rule v], nextId := st.nextId + 1 } m' r'
        = countOpen st m' r' + countOpen ⟨[newAlert st m rule v], st.nextId + 1⟩ m' r' := by
      cases st
      simpa using countOpen_append _ _ _ _ _
    rw [hsplit]
    by_cases hx : m = m' ∧ rule.id = r'
    · rcases hx with ⟨hm, hr⟩
      subst hm; subst hr
      rw [h0]
      simp [countOpen, isOpenFor_newAlert]
    · have hz : countOpen ⟨[newAlert st m rule v], st.nextId + 1⟩ m' r' = 0 := by
        simp [countOpen, isOpenFor_newAlert]
        intro hm hr
        exact absurd ⟨hm, hr⟩ hx
      omega
  · rw [createAlert_of_found st m rule v a hf]
    exact h

lemma CheckMetric_singleton (rule : AlertRule) (st : AlertStore) (m : UUID)
    (name : String) (v : ℚ) :
    CheckMetric [rule] st m name v =
      if rule.metricName ≠ name then st
      else if evalOperator rule.operator v rule.thresholdValue then
        createAlert st m rule v
      else st := rfl

lemma countOpen_CheckMetric_singleton_le (rule : AlertRule) (st : AlertStore)
    (m : UUID) (name : String) (v : ℚ) (h : countOpen st m rule.id ≤ 1) :
    countOpen (CheckMetric [rule] st m name v) m rule.id ≤ 1 := by
  rw [CheckMetric_singleton]
  split
  · exact h
  · split
    · exact countOpen_createAlert_le_any st m rule v m rule.id h
    · exact h

lemma resolveOne_of_ack (rules : List AlertRule) (latest : UUID → String → Option ℚ)
    (now : Nat) (a : Alert) (h : a.acknowledged = true) :
    resolveOne rules latest now a = a := by
  simp [resolveOne, h]

lemma resolveOne_cases (rules : List AlertRule) (latest : UUID → String → Option ℚ)
    (now : Nat) (b : Alert) :
    resolveOne rules latest now b = b ∨
    (resolveOne rules latest now b).acknowledged = true := by
  by_cases hb : b.acknowledged = true
  · exact Or.inl (resolveOne_of_ack rules latest now b hb)
  · have hb' : b.acknowledged = false := by simpa using hb
    cases hl : lookupRule rules b.ruleId with
    | none => exact Or.inl (by simp [resolveOne, hb', hl])
    | some rule =>
      cases hv : latest b.machineId rule.metricName with
      | none => exact Or.inl (by simp [resolveOne, hb', hl, hv])
      | some v =>
        by_cases ht : evalOperator rule.operator v rule.thresholdValue = true
        · exact Or.inl (by simp [resolveOne, hb', hl, hv, ht])
        · have ht' : evalOperator rule.operator v rule.thresholdValue = false := by
            simpa using ht
          exact Or.inr (by simp [resolveOne, hb', hl, hv, ht'])

/-- C1: CheckMetric treats a rule as triggered exactly when the comparison
value-operator-threshold holds, for each of the four comparison operators;
an operator string outside these four never triggers and creates no alert. -/
theorem checkMetric_operator_semantics (op : String) (v t : ℚ) (rule : AlertRule)
    (st : AlertStore) (m : UUID)
    (h1 : op ≠ ">") (h2 : op ≠ "<") (h3 : op ≠ ">=") (h4 : op ≠ "<=")
    (hop : rule.operator = op) :
    evalOperator ">" v t = decide (v > t) ∧
    evalOperator "<" v t = decide (v < t) ∧
    evalOperator ">=" v t = decide (v ≥ t) ∧
    evalOperator "<=" v t = decide (v ≤ t) ∧
    evalOperator op v t = false ∧
    CheckMetric [rule] st m rule.metricName v = st := by
  refine ⟨by simp [evalOperator], by simp [evalOperator], by simp [evalOperator],
    by simp [evalOperator], by simp [evalOperator, h1, h2, h3, h4], ?_⟩
  rw [CheckMetric_singleton]
  simp [evalOperator, hop, h1, h2, h3, h4]

/-- Witness for C1 at operator "between", value 71, threshold 70. -/
theorem checkMetric_operator_semantics_witness :
    (("between" : String) ≠ ">" ∧ ("between" : String) ≠ "<" ∧
     ("between" : String) ≠ ">=" ∧ ("between" : String) ≠ "<=" ∧
     betweenRule.operator = "between") ∧
    (evalOperator ">" 71 70 = decide ((71 : ℚ) > 70) ∧
     evalOperator "<" 71 70 = decide ((71 : ℚ) < 70) ∧
     evalOperator ">=" 71 70 = decide ((71 : ℚ) ≥ 70) ∧
     evalOperator "<=" 71 70 = decide ((71 : ℚ) ≤ 70) ∧
     evalOperator "between" 71 70 = false ∧
     CheckMetric [betweenRule] emptyStore 5 betweenRule.metricName 71 = emptyStore) :=
  ⟨⟨by decide, by decide, by decide, by decide, rfl⟩,
   checkMetric_operator_semantics "between" 71 70 betweenRule emptyStore 5
     (by decide) (by decide) (by decide) (by decide) rfl⟩

/-- C2: under serialized calls, createAlert keeps at most one open alert per
(machineId, ruleId) key: a found open alert makes it return without
inserting, and two consecutive triggering samples through CheckMetric leave
at most one open alert for the key of the rule. -/
theorem createAlert_dedup_invariant (st : AlertStore) (m : UUID) (rule : AlertRule)
    (v w : ℚ) (h : countOpen st m rule.id ≤ 1) :
    (∀ a, findOpenAlert st m rule.id = some a → createAlert st m rule v = st) ∧
    countOpen (createAlert st m rule v) m rule.id ≤ 1 ∧
    countOpen (CheckMetric [rule] (CheckMetric [rule] st m rule.metricName v)
      m rule.metricName w) m rule.id ≤ 1 := by
  refine ⟨fun a ha => createAlert_of_found st m rule v a ha,
    countOpen_createAlert_le_any st m rule v m rule.id h,
    countOpen_CheckMetric_singleton_le rule _ m _ w
      (countOpen_CheckMetric_singleton_le rule st m _ v h)⟩

/-- Witness for C2 at a store already holding one open alert for the key. -/
theorem createAlert_dedup_invariant_witness :
    countOpen ⟨[alertX], 11⟩ 5 tempRule.id ≤ 1 ∧
    ((∀ a, findOpenAlert ⟨[alertX], 11⟩ 5 tempRule.id = some a →
        createAlert ⟨[alertX], 11⟩ 5 tempRule 71 = ⟨[alertX], 11⟩) ∧
     countOpen (createAlert ⟨[alertX], 11⟩ 5 tempRule 71) 5 tempRule.id ≤ 1 ∧
     countOpen (CheckMetric [tempRule] (CheckMetric [tempRule] ⟨[alertX], 11⟩ 5
       tempRule.metricName 71) 5 tempRule.metricName 72) 5 tempRule.id ≤ 1) :=
  ⟨by decide, createAlert_dedup_invariant ⟨[alertX], 11⟩ 5 tempRule 71 72 (by decide)⟩

/-- C3 counterexample: an open alert whose rule is present in the snapshot
but whose current value is unknown (no latest sample) is left untouched by
the sweep, not acknowledged by "system" as the claim states. -/
theorem resolve_unknown_value_not_acknowledged :
    lookupRule [tempRule] alertX.ruleId = some tempRule ∧
    alertX.acknowledged = false ∧
    resolveOne [tempRule] (fun _ _ => none) 5 alertX = alertX ∧
    (resolveOne [tempRule] (fun _ _ => none) 5 alertX).acknowledged = false ∧
    (resolveOne [tempRule] (fun _ _ => none) 5 alertX).acknowledgedBy ≠ some "system" := by
  refine ⟨rfl, rfl, rfl, rfl, by simp [resolveOne, lookupRule, tempRule, alertX]⟩

/-- C3 (amended): for an open alert with its rule present, when the current
value is known and the operator test is now false the alert is acknowledged
by "system" at the current time; when the test is still true, or the current
value is unknown (no latest sample), the alert is left untouched. -/
theorem resolve_semantics (rules : List AlertRule) (latest : UUID → String → Option ℚ)
    (now : Nat) (a : Alert) (rule : AlertRule)
    (hopen : a.acknowledged = false) (hrule : lookupRule rules a.ruleId = some rule) :
    (latest a.machineId rule.metricName = none → resolveOne rules latest now a = a) ∧
    (∀ v, latest a.machineId rule.metricName = some v →
      (evalOperator rule.operator v rule.thresholdValue = true →
        resolveOne rules latest now a = a) ∧
      (evalOperator rule.operator v rule.thresholdValue = false →
        resolveOne rules latest now a =
          { a with acknowledged := true, acknowledgedBy := some "system",
                   acknowledgedAt := some now })) := by
  constructor
  · intro hl
    simp [resolveOne, hopen, hrule, hl]
  · intro v hl
    constructor
    · intro ht
      simp [resolveOne, hopen, hrule, hl, ht]
    · intro ht
      simp [resolveOne, hopen, hrule, hl, ht]

/-- Witness for the amended C3 at the temperature rule with a known current
value. -/
theorem resolve_semantics_witness :
    (alertX.acknowledged = false ∧ lookupRule [tempRule] alertX.ruleId = some tempRule) ∧
    (((fun _ _ => (some (68 : ℚ))) alertX.machineId tempRule.metricName = none →
        resolveOne [tempRule] (fun _ _ => some 68) 7 alertX = alertX) ∧
     (∀ v, (fun _ _ => (some (68 : ℚ))) alertX.machineId tempRule.metricName = some v →
       (evalOperator tempRule.operator v tempRule.thresholdValue = true →
         resolveOne [tempRule] (fun _ _ => some 68) 7 alertX = alertX) ∧
       (evalOperator tempRule.operator v tempRule.thresholdValue = false →
         resolveOne [tempRule] (fun _ _ => some 68) 7 alertX =
           { alertX with acknowledged := true, acknowledgedBy := some "system",
                         acknowledgedAt := some 7 }))) :=
  ⟨⟨rfl, rfl⟩, resolve_semantics [tempRule] (fun _ _ => some 68) 7 alertX tempRule rfl rfl⟩

/-- C4: for an open alert on the temperature rule with operator greater-than
and threshold 70, a sweep closes it when the latest sample is at most 70,
leaves it open when the latest sample is still above 70, and leaves it open
when no sample exists. -/
theorem sweep_autoresolve_threshold70 (latest : UUID → String → Option ℚ) (now : Nat)
    (a : Alert) (n : UUID) (hopen : a.acknowledged = false)
    (hrid : a.ruleId = tempRule.id) :
    (∀ v, latest a.machineId "temperature" = some v → v ≤ 70 →
      (resolveAlerts [tempRule] latest now ⟨[a], n⟩).alerts =
        [{ a with acknowledged := true, acknowledgedBy := some "system",
                  acknowledgedAt := some now }]) ∧
    (∀ v, latest a.machineId "temperature" = some v → v > 70 →
      resolveAlerts [tempRule] latest now ⟨[a], n⟩ = ⟨[a], n⟩) ∧
    (latest a.machineId "temperature" = none →
      resolveAlerts [tempRule] latest now ⟨[a], n⟩ = ⟨[a], n⟩) := by
  have hlk : lookupRule [tempRule] a.ruleId = some tempRule := by
    simp [lookupRule, hrid]
  have hmn : tempRule.metricName = "temperature" := rfl
  have hoperator : tempRule.operator = ">" := rfl
  have hthr : tempRule.thresholdValue = 70 := rfl
  refine ⟨?_, ?_, ?_⟩
  · intro v hl hv
    simp [resolveAlerts, resolveOne, hopen, hlk, hmn, hoperator, hthr, hl,
      evalOperator, not_lt.mpr hv]
  · intro v hl hv
    simp [resolveAlerts, resolveOne, hopen, hlk, hmn, hoperator, hthr, hl,
      evalOperator, hv]
  · intro hl
    simp [resolveAlerts, resolveOne, hopen, hlk, hmn, hl]

/-- Witness for C4 with latest sample 68 for the open temperature alert. -/
theorem sweep_autoresolve_threshold70_witness :
    (alertX.acknowledged = false ∧ alertX.ruleId = tempRule.id) ∧
    ((∀ v, (fun _ _ => (some (68 : ℚ))) alertX.machineId "temperature" = some v → v ≤ 70 →
       (resolveAlerts [tempRule] (fun _ _ => some 68) 9 ⟨[alertX], 11⟩).alerts =
         [{ alertX with acknowledged := true, acknowledgedBy := some "system",
                        acknowledgedAt := some 9 }]) ∧
     (∀ v, (fun _ _ => (some (68 : ℚ))) alertX.machineId "temperature" = some v → v > 70 →
       resolveAlerts [tempRule] (fun _ _ => some 68) 9 ⟨[alertX], 11⟩ = ⟨[alertX], 11⟩) ∧
     ((fun _ _ => (some (68 : ℚ))) alertX.machineId "temperature" = none →
       resolveAlerts [tempRule] (fun _ _ => some 68) 9 ⟨[alertX], 11⟩ = ⟨[alertX], 11⟩)) :=
  ⟨⟨rfl, rfl⟩, sweep_autoresolve_threshold70 (fun _ _ => some 68) 9 alertX 11 rfl rfl⟩

/-- C5: every alert the engine creates carries the severity of the rule and
the message built from the rule name (or the metric name when the rule name
is empty) followed by the value and threshold rendered with two decimals; in
particular 71.3 renders as "71.30" and 70 as "70.00". -/
theorem createAlert_severity_message (st : AlertStore) (m : UUID) (rule : AlertRule)
    (v : ℚ) (h : countOpen st m rule.id = 0) :
    (createAlert st m rule v).alerts = st.alerts ++ [newAlert st m rule v] ∧
    (newAlert st m rule v).severity = rule.severity ∧
    (newAlert st m rule v).acknowledged = false ∧
    (newAlert st m rule v).message =
      (if rule.name = "" then rule.metricName else rule.name) ++
        " - value: " ++ fmt2 v ++ " (threshold: " ++ fmt2 rule.thresholdValue ++ ")" ∧
    fmt2 (713/10) = "71.30" ∧ fmt2 70 = "70.00" := by
  refine ⟨?_, rfl, rfl, rfl, ?_, ?_⟩
  · rw [createAlert_of_none st m rule v ((findOpenAlert_eq_none_iff st m rule.id).mpr h)]
  · have h1 : (⌊(713/10 : ℚ) * 100 + 1/2⌋ : ℤ) = 7130 := by norm_num
    simp only [fmt2, h1]
    decide
  · have h1 : (⌊(70 : ℚ) * 100 + 1/2⌋ : ℤ) = 7000 := by norm_num
    simp only [fmt2, h1]
    decide

/-- Witness for C5: the Scenario A rule and value 71.3 on an empty store. -/
theorem createAlert_severity_message_witness :
    countOpen emptyStore 5 tempRule.id = 0 ∧
    ((createAlert emptyStore 5 tempRule (713/10)).alerts =
       emptyStore.alerts ++ [newAlert emptyStore 5 tempRule (713/10)] ∧
     (newAlert emptyStore 5 tempRule (713/10)).severity = tempRule.severity ∧
     (newAlert emptyStore 5 tempRule (713/10)).acknowledged = false ∧
     (newAlert emptyStore 5 tempRule (713/10)).message =
       (if tempRule.name = "" then tempRule.metricName else tempRule.name) ++
         " - value: " ++ fmt2 (713/10) ++ " (threshold: " ++ fmt2 tempRule.thresholdValue ++ ")" ∧
     fmt2 (713/10) = "71.30" ∧ fmt2 70 = "70.00") :=
  ⟨rfl, createAlert_severity_message emptyStore 5 tempRule (713/10) rfl⟩

/-- C6: when two distinct enabled rules for the same metric both hold on the
sample value and neither key has an open alert yet, CheckMetric invokes
alert creation once per rule, leaving one open alert for each rule id. -/
theorem checkMetric_independent_rules (st : AlertStore) (m : UUID) (r1 r2 : AlertRule)
    (name : String) (v : ℚ)
    (hid : r1.id ≠ r2.id)
    (hm1 : r1.metricName = name) (hm2 : r2.metricName = name)
    (ht1 : evalOperator r1.operator v r1.thresholdValue = true)
    (ht2 : evalOperator r2.operator v r2.thresholdValue = true)
    (h1 : countOpen st m r1.id = 0) (h2 : countOpen st m r2.id = 0) :
    CheckMetric [r1, r2] st m name v = createAlert (createAlert st m r1 v) m r2 v ∧
    countOpen (CheckMetric [r1, r2] st m name v) m r1.id = 1 ∧
    countOpen (CheckMetric [r1, r2] st m name v) m r2.id = 1 := by
  have hstep : CheckMetric [r1, r2] st m name v =
      createAlert (createAlert st m r1 v) m r2 v := by
    simp [CheckMetric, hm1, hm2, ht1, ht2]
  have hf1 : findOpenAlert st m r1.id = none :=
    (findOpenAlert_eq_none_iff st m r1.id).mpr h1
  have e1 : createAlert st m r1 v =
      ⟨st.alerts ++ [newAlert st m r1 v], st.nextId + 1⟩ :=
    createAlert_of_none st m r1 v hf1
  have c1 : countOpen (createAlert st m r1 v) m r1.id = 1 := by
    rw [e1, countOpen_store_append, h1, isOpenFor_newAlert]
    simp
  have c2 : countOpen (createAlert st m r1 v) m r2.id = 0 := by
    rw [e1, countOpen_store_append, h2, isOpenFor_newAlert]
    simp [hid]
  have hf2 : findOpenAlert (createAlert st m r1 v) m r2.id = none :=
    (findOpenAlert_eq_none_iff _ m r2.id).mpr c2
  have e2 : createAlert (createAlert st m r1 v) m r2 v =
      ⟨(createAlert st m r1 v).alerts ++ [newAlert (createAlert st m r1 v) m r2 v],
        (createAlert st m r1 v).nextId + 1⟩ :=
    createAlert_of_none _ m r2 v hf2
  refine ⟨hstep, ?_, ?_⟩
  · rw [hstep, e2, countOpen_store_append, c1, isOpenFor_newAlert]
    simp [Ne.symm hid]
  · rw [hstep, e2, countOpen_store_append, c2, isOpenFor_newAlert]
    simp

/-- Witness for C6: both temperature rules fire on value 95. -/
theorem checkMetric_independent_rules_witness :
    (tempRule.id ≠ critRule.id ∧
     tempRule.metricName = "temperature" ∧ critRule.metricName = "temperature" ∧
     evalOperator tempRule.operator 95 tempRule.thresholdValue = true ∧
     evalOperator critRule.operator 95 critRule.thresholdValue = true ∧
     countOpen emptyStore 5 tempRule.id = 0 ∧ countOpen emptyStore 5 critRule.id = 0) ∧
    (CheckMetric [tempRule, critRule] emptyStore 5 "temperature" 95 =
       createAlert (createAlert emptyStore 5 tempRule 95) 5 critRule 95 ∧
     countOpen (CheckMetric [tempRule, critRule] emptyStore 5 "temperature" 95) 5 tempRule.id = 1 ∧
     countOpen (CheckMetric [tempRule, critRule] emptyStore 5 "temperature" 95) 5 critRule.id = 1) :=
  ⟨⟨by decide, rfl, rfl, by decide, by decide, rfl, rfl⟩,
   checkMetric_independent_rules emptyStore 5 tempRule critRule "temperature" 95
     (by decide) rfl rfl (by decide) (by decide) rfl rfl⟩

/-- C7: an open alert whose rule id is absent from the rule snapshot of the
sweep is left completely unchanged by the sweep. -/
theorem sweep_missing_rule_untouched (rules : List AlertRule)
    (latest : UUID → String → Option ℚ) (now : Nat) (st : AlertStore) (a : Alert)
    (hmem : a ∈ st.alerts) (hmiss : lookupRule rules a.ruleId = none) :
    resolveOne rules latest now a = a ∧
    a ∈ (resolveAlerts rules latest now st).alerts := by
  have h1 : resolveOne rules latest now a = a := by
    simp [resolveOne, hmiss]
  exact ⟨h1, by
    simpa [resolveAlerts, h1] using
      List.mem_map_of_mem (resolveOne rules latest now) hmem⟩

/-- Witness for C7 with an empty rule snapshot. -/
theorem sweep_missing_rule_untouched_witness :
    (alertX ∈ (⟨[alertX], 11⟩ : AlertStore).alerts ∧
     lookupRule [] alertX.ruleId = none) ∧
    (resolveOne [] (fun _ _ => none) 3 alertX = alertX ∧
     alertX ∈ (resolveAlerts [] (fun _ _ => none) 3 ⟨[alertX], 11⟩).alerts) :=
  ⟨⟨by simp, rfl⟩,
   sweep_missing_rule_untouched [] (fun _ _ => none) 3 ⟨[alertX], 11⟩ alertX (by simp) rfl⟩

/-- C8: on a failed repository query, loadRules leaves the held rule snapshot
unchanged (empty when the first load fails) and logs the failure; the rules
field is replaced only when the query succeeds. -/
theorem loadRules_error_keeps_snapshot (s : ServiceState) (e : String)
    (rs : List AlertRule) :
    (loadRules (Except.error e) s).rules = s.rules ∧
    (loadRules (Except.error e) s).logs =
      s.logs ++ ["Failed to load alert rules: " ++ e] ∧
    (loadRules (Except.error e) { rules := [], logs := [] }).rules = [] ∧
    (loadRules (Except.ok rs) s).rules = rs :=
  ⟨rfl, rfl, rfl, rfl⟩

/-- C9: the sweep never un-acknowledges: an acknowledged alert is left
exactly as it is, it survives the sweep unchanged inside the store, and
applying resolution twice equals applying it once, with no second
timestamping of an already-acknowledged alert. -/
theorem sweep_never_unacknowledges (rules : List AlertRule)
    (latest : UUID → String → Option ℚ) (now : Nat) (st : AlertStore) (a : Alert)
    (hack : a.acknowledged = true) :
    resolveOne rules latest now a = a ∧
    (a ∈ st.alerts → a ∈ (resolveAlerts rules latest now st).alerts) ∧
    (∀ b : Alert, resolveOne rules latest now (resolveOne rules latest now b) =
      resolveOne rules latest now b) ∧
    (∀ b : Alert, b.acknowledged = true →
      (resolveOne rules latest now b).acknowledgedAt = b.acknowledgedAt) := by
  have hself := resolveOne_of_ack rules latest now a hack
  refine ⟨hself, ?_, ?_, ?_⟩
  · intro hmem
    simpa [resolveAlerts, hself] using
      List.mem_map_of_mem (resolveOne rules latest now) hmem
  · intro b
    rcases resolveOne_cases rules latest now b with h | h
    · rw [h]
      exact h
    · exact resolveOne_of_ack rules latest now _ h
  · intro b hb
    rw [resolveOne_of_ack rules latest now b hb]

/-- Witness for C9 at an acknowledged alert in a singleton store. -/
theorem sweep_never_unacknowledges_witness :
    alertAck.acknowledged = true ∧
    (resolveOne [tempRule] (fun _ _ => some 95) 8 alertAck = alertAck ∧
     (alertAck ∈ (⟨[alertAck], 13⟩ : AlertStore).alerts →
       alertAck ∈ (resolveAlerts [tempRule] (fun _ _ => some 95) 8 ⟨[alertAck], 13⟩).alerts) ∧
     (∀ b : Alert, resolveOne [tempRule] (fun _ _ => some 95) 8
        (resolveOne [tempRule] (fun _ _ => some 95) 8 b) =
        resolveOne [tempRule] (fun _ _ => some 95) 8 b) ∧
     (∀ b : Alert, b.acknowledged = true →
       (resolveOne [tempRule] (fun _ _ => some 95) 8 b).acknowledgedAt = b.acknowledgedAt)) :=
  ⟨rfl, sweep_never_unacknowledges [tempRule] (fun _ _ => some 95) 8 ⟨[alertAck], 13⟩ alertAck rfl⟩

/-- C10: createAlert inserts a new row exactly when the existence query does
not successfully return one; in particular a failing dedup query is treated
like no-rows and leads to a duplicate open alert for the same key. -/
theorem createAlert_query_error_duplicates (st : AlertStore) (m : UUID)
    (rule : AlertRule) (v : ℚ) (hc : countOpen st m rule.id = 1) :
    (∀ i, createAlertWith (ScanOutcome.found i) st m rule v = st) ∧
    (createAlertWith ScanOutcome.noRows st m rule v).alerts =
      st.alerts ++ [newAlert st m rule v] ∧
    (createAlertWith ScanOutcome.queryError st m rule v).alerts =
      st.alerts ++ [newAlert st m rule v] ∧
    countOpen (createAlertWith ScanOutcome.queryError st m rule v) m rule.id = 2 := by
  refine ⟨fun i => rfl, rfl, rfl, ?_⟩
  show countOpen ⟨st.alerts ++ [newAlert st m rule v], st.nextId + 1⟩ m rule.id = 2
  rw [countOpen_store_append, hc, isOpenFor_newAlert]
  simp

/-- Witness for C10: a store already holding the open alert for the key. -/
theorem createAlert_query_error_duplicates_witness :
    countOpen ⟨[alertX], 11⟩ 5 tempRule.id = 1 ∧
    ((∀ i, createAlertWith (ScanOutcome.found i) ⟨[alertX], 11⟩ 5 tempRule 72 = ⟨[alertX], 11⟩) ∧
     (createAlertWith ScanOutcome.noRows ⟨[alertX], 11⟩ 5 tempRule 72).alerts =
       [alertX] ++ [newAlert ⟨[alertX], 11⟩ 5 tempRule 72] ∧
     (createAlertWith ScanOutcome.queryError ⟨[alertX], 11⟩ 5 tempRule 72).alerts =
       [alertX] ++ [newAlert ⟨[alertX], 11⟩ 5 tempRule 72] ∧
     countOpen (createAlertWith ScanOutcome.queryError ⟨[alertX], 11⟩ 5 tempRule 72) 5 tempRule.id = 2) :=
  ⟨by decide, createAlert_query_error_duplicates ⟨[alertX], 11⟩ 5 tempRule 72 (by decide)⟩

end Telemetry
